import Mathlib

/-!
Verification of the relaunch crate (maaku/relaunch): a shallow embedding of
the Trampoline relaunch protocol from src/lib.rs and
src/platform_impl/{macos,default}.rs, together with theorems settling the
specification claims.

Modelling conventions:
* Filesystem paths are lists of components from the root (`Fpath`).
* The OS environment visible to `Trampoline::bundle` is an explicit `Env`
  record: the main-bundle object, the main-thread flag, the temp and home
  directories, the `canonicalize`/`current_exe` results, the child-process
  spawn+wait outcome, a per-call-site fault injector for the fallible
  filesystem calls, and a concrete filesystem state `FS`.
* A filesystem is a list of (leaf) directories plus a list of files with
  contents; a path exists when it is a prefix of some recorded entry.
  `File::create` followed by the sequence of `write!` calls is modelled as
  one `FS.writeFile` of the whole manifest content.
* Process-level outcomes (`return Ok`, `return Err`, `std::process::exit`,
  panics from `unwrap`/`expect`) are the constructors of `BundleResult`.
* Every operation the code performs is also recorded in an `Effect` trace so
  that frame claims (no side effects, no child spawned) are statable.
-/

/-- A Rust `std::io::Error`, identified by its underlying OS error code. -/
structure IOError where
  code : Nat
deriving DecidableEq, Repr

/-- The error `std::fs::copy` reports when the source file is missing. -/
def IOError.notFound : IOError := ⟨2⟩

/-- A filesystem path, as the list of its components from the root. -/
abbrev Fpath := List String

/-- The `NSBundle` main-bundle object: `NSBundle::mainBundle()` always
returns an object, whose `bundleIdentifier()` may be nil (`none`). -/
structure NSBundle where
  bundleIdentifier : Option String
deriving DecidableEq, Repr

/-- The `NSApplication` shared-application object (opaque). -/
structure NSApplication where
deriving DecidableEq, Repr

/-- Concrete filesystem state: recorded directories and files with
contents.  A path exists when it is a prefix of a recorded entry. -/
structure FS where
  dirs : List Fpath
  files : List (Fpath × String)
deriving DecidableEq, Repr

/-- First-match lookup of a file by path. -/
def findFileIn : List (Fpath × String) → Fpath → Option String
  | [], _ => none
  | f :: l, p => if f.1 = p then some f.2 else findFileIn l p

/-- Contents of the file at `p`, if any. -/
def FS.readFile (fs : FS) (p : Fpath) : Option String :=
  findFileIn fs.files p

/-- `Fpath::try_exists`: `p` names an existing object when it is a prefix of
(or equal to) some recorded directory or file. -/
def FS.existsPath (fs : FS) (p : Fpath) : Bool :=
  fs.dirs.any (fun d => p.isPrefixOf d) || fs.files.any (fun f => p.isPrefixOf f.1)

/-- `std::fs::remove_dir_all`: removes everything at or below `p`. -/
def FS.removeDirAll (fs : FS) (p : Fpath) : FS :=
  { dirs := fs.dirs.filter (fun d => !(p.isPrefixOf d)),
    files := fs.files.filter (fun f => !(p.isPrefixOf f.1)) }

/-- `std::fs::create_dir_all`: records the directory `p` (ancestors are
implied by the prefix-based existence test). -/
def FS.createDirAll (fs : FS) (p : Fpath) : FS :=
  { fs with dirs := if p ∈ fs.dirs then fs.dirs else p :: fs.dirs }

/-- `std::fs::File::create` plus writing the whole content. -/
def FS.writeFile (fs : FS) (p : Fpath) (content : String) : FS :=
  { fs with files := (p, content) :: fs.files }

/-- `std::fs::copy`: reads the source file and writes its bytes to `dst`. -/
def FS.copy (fs : FS) (src dst : Fpath) : Except IOError FS :=
  match fs.readFile src with
  | none => Except.error IOError.notFound
  | some content => Except.ok (fs.writeFile dst content)

/-- The fallible filesystem call sites inside the builder, for fault
injection (each may fail with an OS error such as permission denied). -/
inductive FsOpId
  | tryExists
  | removeDirAll
  | createDirMacOS
  | createDirResources
  | copyExe
  | writePlist
deriving DecidableEq, Repr

/-- Observable side effects performed by `Trampoline::bundle`. -/
inductive Effect
  | removedDir (p : Fpath)
  | createdDir (p : Fpath)
  | copiedFile (src dst : Fpath)
  | wroteFile (p : Fpath) (content : String)
  | spawned (p : Fpath)
deriving DecidableEq, Repr

/-- The OS environment a call to `Trampoline::bundle` runs in. -/
structure Env where
  /-- The object returned by `NSBundle::mainBundle()`. -/
  mainBundle : NSBundle
  /-- Whether the calling thread is the process main thread
  (`MainThreadMarker::new()` succeeds exactly then). -/
  onMainThread : Bool
  /-- `std::env::temp_dir()`. -/
  tempDir : Fpath
  /-- `dirs::home_dir()`. -/
  homeDir : Option Fpath
  /-- `std::fs::canonicalize`. -/
  canonicalize : Fpath → Except IOError Fpath
  /-- `std::env::current_exe()`. -/
  currentExe : Except IOError Fpath
  /-- Combined `Command::new(dst).spawn()?.wait()?`: on success the child
  ran and `ExitStatus::code()` is the returned `Option`. -/
  spawnResult : Fpath → Except IOError (Option Int)
  /-- Fault injection for the fallible filesystem call sites. -/
  fault : FsOpId → Option IOError
  /-- The filesystem state. -/
  fs : FS

/-- Where to save the generated app bundle (`InstallDir` in src/lib.rs). -/
inductive InstallDir
  | temp
  | systemApplications
  | userApplications
  | custom (path : Fpath)

/-- The application relauncher configuration (`Trampoline` in src/lib.rs). -/
structure Trampoline where
  name : String
  ident : String
  version : String
deriving DecidableEq, Repr

/-- `Trampoline::new(name, ident)`.  The version field is initialized from
the compile-time constant `env!("CARGO_PKG_VERSION")`, which is the version
of the crate being compiled (the relaunch crate itself); it is passed here
as the explicit argument `cargoPkgVersion`. -/
def Trampoline.new (name ident cargoPkgVersion : String) : Trampoline :=
  { name := name, ident := ident, version := cargoPkgVersion }

/-- Setter `Trampoline::name`. -/
def Trampoline.setName (t : Trampoline) (name : String) : Trampoline :=
  { t with name := name }

/-- Setter `Trampoline::ident`. -/
def Trampoline.setIdent (t : Trampoline) (ident : String) : Trampoline :=
  { t with ident := ident }

/-- Setter `Trampoline::version`. -/
def Trampoline.setVersion (t : Trampoline) (version : String) : Trampoline :=
  { t with version := version }

/-- `Trampoline::get_bundle`: returns the main bundle exactly when its
`bundleIdentifier()` is non-nil
(`bundle.bundleIdentifier().and_then(|_| Some(bundle))`). -/
def Trampoline.get_bundle (env : Env) : Option NSBundle :=
  let bundle := env.mainBundle
  bundle.bundleIdentifier.bind (fun _ => some bundle)

/-- `Trampoline::is_bundled`. -/
def Trampoline.is_bundled (env : Env) : Bool :=
  (Trampoline.get_bundle env).isSome

/-- The post-relaunch handle (`Application` in src/lib.rs). -/
structure Application where
  name : String
  ident : String
  bundle_path : Fpath
  bundle : NSBundle
  app : NSApplication
deriving DecidableEq, Repr

/-- Outcome of a sub-step: normal value, `Err`, or a Rust panic. -/
inductive Outcome (α : Type)
  | ok (a : α)
  | error (e : IOError)
  | panicked (msg : String)
deriving DecidableEq, Repr

/-- `Application::new`: pops three components off `current_exe` to find the
bundle path, requires the main thread (`MainThreadMarker::new().expect`),
and obtains the shared `NSApplication`.  The two `expect` calls panic. -/
def Application.new (env : Env) (name ident : String) (bundle : NSBundle) :
    Outcome Application :=
  match env.currentExe with
  | Except.error _ => Outcome.panicked "Could not determine path to current executable."
  | Except.ok exe =>
    let bundle_path := exe.dropLast.dropLast.dropLast
    if env.onMainThread then
      Outcome.ok { name := name, ident := ident, bundle_path := bundle_path,
                   bundle := bundle, app := NSApplication.mk }
    else
      Outcome.panicked "Must call Application::new() from the main thread."

/-- The chunks written to `Contents/Info.plist` by the sequence of `write!`
calls in `Trampoline::bundle` (src/lib.rs lines 148-183), verbatim. -/
def infoPlistLines (name ident version exe_name : String) : List String :=
  [ "<?xml version=\"1.0\" encoding=\"UTF-8\"?>\n",
    "<!DOCTYPE plist PUBLIC \"-//Apple//DTD PLIST 1.0//EN\" \"http://www.apple.com/DTDs/PropertyList-1.0.dtd\">\n",
    "<plist version=\"1.0\">\n",
    "<dict>\n",
    "\t<key>CFBundleName</key>\n",
    "\t<string>" ++ name ++ "</string>\n",
    "\t<key>CFBundleDisplayName</key>\n",
    "\t<string>" ++ name ++ "</string>\n",
    "\t<key>CFBundleIdentifier</key>\n",
    "\t<string>" ++ ident ++ "</string>\n",
    "\t<key>CFBundleExecutable</key>\n",
    "\t<string>" ++ exe_name ++ "</string>\n",
    "\t<key>CFBundleShortVersionString</key>\n",
    "\t<string>" ++ version ++ "</string>\n",
    "\t<key>CFBundleSupportedPlatforms</key>\n",
    "\t<array>\n",
    "\t\t<string>MacOSX</string>\n",
    "\t</array>\n",
    "\t<key>CFBundleVersion</key>\n",
    "\t<string>" ++ version ++ "</string>\n",
    "\t<key>NSPrincipalClass</key>\n",
    "\t<string>NSApplication</string>\n",
    "\t<key>NSHighResolutionCapable</key>\n",
    "\t<true/>\n",
    "\t<key>CFBundleInfoDictionaryVersion</key>\n",
    "\t<string>6.0</string>\n",
    "\t<key>CFBundlePackageType</key>\n",
    "\t<string>APPL</string>\n",
    "\t<key>CFBundleSignature</key>\n",
    "\t<string>????</string>\n",
    "\t<key>LSMinimumSystemVersion</key>\n",
    "\t<string>10.10.0</string>\n",
    "</dict>\n",
    "</plist>\n" ]

/-- The full manifest content written to `Contents/Info.plist`. -/
def infoPlistContent (name ident version exe_name : String) : String :=
  String.join (infoPlistLines name ident version exe_name)

/-- Resolution of the install location (src/lib.rs lines 118-123).  Note
`dirs::home_dir().unwrap()` panics when no home directory exists, while a
failing `std::fs::canonicalize` is propagated with the `?` operator. -/
def resolveInstallDir (location : InstallDir) (env : Env) : Outcome Fpath :=
  match location with
  | InstallDir.temp => Outcome.ok env.tempDir
  | InstallDir.systemApplications => Outcome.ok ["Applications"]
  | InstallDir.userApplications =>
    match env.homeDir with
    | some home => Outcome.ok (home ++ ["Applications"])
    | none => Outcome.panicked "called Option::unwrap() on a None value"
  | InstallDir.custom path =>
    match env.canonicalize path with
    | Except.ok p => Outcome.ok p
    | Except.error e => Outcome.error e

/-- The tail of the builder after the remove-if-exists step (src/lib.rs
lines 142-183): create the `Contents/MacOS` and `Contents/Resources`
directories, copy the executable, write the manifest.  `fs1`/`tr1` are the
filesystem and effect trace after the removal step. -/
def buildBundleRest (t : Trampoline) (macos_path resources_path plist dst_exe src_exe : Fpath)
    (exe_name : String) (fault : FsOpId → Option IOError) (fs1 : FS) (tr1 : List Effect) :
    Except IOError Fpath × FS × List Effect :=
  match fault FsOpId.createDirMacOS with
  | some e => (Except.error e, fs1, tr1)
  | none =>
    let fs2 := fs1.createDirAll macos_path
    let tr2 := tr1 ++ [Effect.createdDir macos_path]
    match fault FsOpId.createDirResources with
    | some e => (Except.error e, fs2, tr2)
    | none =>
      let fs3 := fs2.createDirAll resources_path
      let tr3 := tr2 ++ [Effect.createdDir resources_path]
      match fault FsOpId.copyExe with
      | some e => (Except.error e, fs3, tr3)
      | none =>
        match fs3.copy src_exe dst_exe with
        | Except.error e => (Except.error e, fs3, tr3)
        | Except.ok fs4 =>
          let tr4 := tr3 ++ [Effect.copiedFile src_exe dst_exe]
          match fault FsOpId.writePlist with
          | some e => (Except.error e, fs4, tr4)
          | none =>
            let content := infoPlistContent t.name t.ident t.version exe_name
            (Except.ok dst_exe, fs4.writeFile plist content,
              tr4 ++ [Effect.wroteFile plist content])

/-- The builder portion of `Trampoline::bundle` (src/lib.rs lines 124-183):
computes the bundle layout, removes a pre-existing bundle, creates the
directory tree, copies the executable and writes the manifest.  Returns the
destination executable path together with the filesystem after the run and
the trace of effects performed. -/
def buildBundle (t : Trampoline) (install_path src_exe : Fpath) (exe_name : String)
    (fault : FsOpId → Option IOError) (fs : FS) :
    Except IOError Fpath × FS × List Effect :=
  let bundle_path := install_path ++ [t.name ++ ".app"]
  let contents_path := bundle_path ++ ["Contents"]
  let macos_path := contents_path ++ ["MacOS"]
  let resources_path := contents_path ++ ["Resources"]
  let plist := contents_path ++ ["Info.plist"]
  let dst_exe := macos_path ++ [exe_name]
  match fault FsOpId.tryExists with
  | some e => (Except.error e, fs, [])
  | none =>
    if fs.existsPath bundle_path then
      match fault FsOpId.removeDirAll with
      | some e => (Except.error e, fs, [])
      | none =>
        buildBundleRest t macos_path resources_path plist dst_exe src_exe exe_name fault
          (fs.removeDirAll bundle_path) [Effect.removedDir bundle_path]
    else
      buildBundleRest t macos_path resources_path plist dst_exe src_exe exe_name fault fs []

/-- The result of a call to `Trampoline::bundle` at the process level. -/
inductive BundleResult
  | ok (app : Application)
  | error (e : IOError)
  | exited (code : Int)
  | panicked (msg : String)
deriving DecidableEq, Repr

/-- `Trampoline::bundle` (src/lib.rs lines 109-196): short-circuit when
already bundled; otherwise resolve the install dir, determine the current
executable and its file name, build the bundle, spawn the copied executable,
wait, and exit with the child code (125 when the child was killed by a
signal).  Returns the process-level result, the final filesystem and the
effect trace.  (`OsStr::to_str` always succeeds in this model, since paths
are modelled as Lean strings.) -/
def Trampoline.bundle (t : Trampoline) (location : InstallDir) (env : Env) :
    BundleResult × FS × List Effect :=
  match Trampoline.get_bundle env with
  | some b =>
    match Application.new env t.name t.ident b with
    | Outcome.ok app => (BundleResult.ok app, env.fs, [])
    | Outcome.error e => (BundleResult.error e, env.fs, [])
    | Outcome.panicked m => (BundleResult.panicked m, env.fs, [])
  | none =>
    match resolveInstallDir location env with
    | Outcome.panicked m => (BundleResult.panicked m, env.fs, [])
    | Outcome.error e => (BundleResult.error e, env.fs, [])
    | Outcome.ok install_path =>
      match env.currentExe with
      | Except.error e => (BundleResult.error e, env.fs, [])
      | Except.ok src_exe =>
        match src_exe.getLast? with
        | none =>
          (BundleResult.panicked "Could not determine executable name for current process.",
            env.fs, [])
        | some exe_name =>
          match buildBundle t install_path src_exe exe_name env.fault env.fs with
          | (Except.error e, fs1, tr) => (BundleResult.error e, fs1, tr)
          | (Except.ok dst_exe, fs1, tr) =>
            match env.spawnResult dst_exe with
            | Except.error e => (BundleResult.error e, fs1, tr)
            | Except.ok status =>
              match status with
              | some code => (BundleResult.exited code, fs1, tr ++ [Effect.spawned dst_exe])
              | none => (BundleResult.exited 125, fs1, tr ++ [Effect.spawned dst_exe])

/-! The fake platform layer (src/platform_impl/default.rs): a process-wide
boolean flag stands in for the OS bundle state. -/

/-- Initial value of the `IS_BUNDLED` static (`AtomicBool::new(false)`). -/
def initialIsBundled : Bool := false

/-- Fake `NSBundle::bundleIdentifier`: reads the flag. -/
def defaultBundleIdentifier (isBundledFlag : Bool) : Option String :=
  if isBundledFlag then some "org.example.MyApp" else none

/-- Fake `bundle` operation: `IS_BUNDLED.store(true)`; returns the new
flag value. -/
def defaultBundle (_isBundledFlag : Bool) : Bool := true

/-- The operations of the fake platform layer that touch the flag. -/
inductive DefaultOp
  | queryIdent
  | runBundle
deriving DecidableEq, Repr

/-- Effect of one fake-layer operation on the flag (`queryIdent` only
loads it; `runBundle` stores `true`). -/
def defaultStep (flag : Bool) : DefaultOp → Bool
  | DefaultOp.queryIdent => flag
  | DefaultOp.runBundle => defaultBundle flag

/-- Effect of a sequence of fake-layer operations on the flag. -/
def defaultRun (flag : Bool) (ops : List DefaultOp) : Bool :=
  ops.foldl defaultStep flag

/-! Concrete fixtures used by the witness theorems. -/

/-- A small filesystem containing the running executable. -/
def sampleFS : FS :=
  { dirs := [["usr"], ["usr", "bin"]],
    files := [(["usr", "bin", "myapp"], "EXEBYTES")] }

/-- An environment in which the process is not bundled and every OS
operation succeeds; the child exits with code 7. -/
def envUnbundled : Env :=
  { mainBundle := { bundleIdentifier := none },
    onMainThread := true,
    tempDir := ["tmp"],
    homeDir := some ["home", "alice"],
    canonicalize := fun p => Except.ok p,
    currentExe := Except.ok ["usr", "bin", "myapp"],
    spawnResult := fun _ => Except.ok (some 7),
    fault := fun _ => none,
    fs := sampleFS }

/-- The same environment, but the process already runs from a bundle. -/
def envBundled : Env :=
  { envUnbundled with mainBundle := { bundleIdentifier := some "org.example.MyApp" } }

/-- Unbundled environment with no determinable home directory. -/
def envNoHome : Env :=
  { envUnbundled with homeDir := none }

/-- Unbundled environment in which copying the executable fails with OS
error 13 (permission denied). -/
def envFaultCopy : Env :=
  { envUnbundled with fault := fun i => if i = FsOpId.copyExe then some ⟨13⟩ else none }

/-- Unbundled environment in which `std::fs::canonicalize` fails with OS
error 20 (not a directory). -/
def envBadCanon : Env :=
  { envUnbundled with canonicalize := fun _ => Except.error ⟨20⟩ }

/-- Unbundled environment whose child is killed by a signal (no exit code). -/
def envSignalled : Env :=
  { envUnbundled with spawnResult := fun _ => Except.ok none }

/-- A sample trampoline configuration. -/
def t0 : Trampoline := Trampoline.new "Foo" "org.example.Foo" "0.1.2"

/-! General lemmas about the filesystem model. -/

theorem findFileIn_filter (l : List (Fpath × String)) (q : Fpath) (P : Fpath → Bool)
    (hq : P q = true) :
    findFileIn (l.filter (fun f => P f.1)) q = findFileIn l q := by
  induction l with
  | nil => rfl
  | cons f l ih =>
    by_cases hfq : f.1 = q
    · have hPf : P f.1 = true := by rw [hfq]; exact hq
      simp [List.filter_cons, hPf, hq, findFileIn, hfq, ih]
    · cases hPf : P f.1 <;> simp [List.filter_cons, hPf, findFileIn, hfq, ih]

theorem FS.readFile_removeDirAll (fs : FS) (p q : Fpath) (h : p.isPrefixOf q = false) :
    (fs.removeDirAll p).readFile q = fs.readFile q := by
  unfold FS.removeDirAll FS.readFile
  exact findFileIn_filter _ _ (fun x => !(p.isPrefixOf x)) (by simp [h])

theorem FS.readFile_createDirAll (fs : FS) (p q : Fpath) :
    (fs.createDirAll p).readFile q = fs.readFile q := rfl

theorem FS.readFile_writeFile_self (fs : FS) (p : Fpath) (c : String) :
    (fs.writeFile p c).readFile p = some c := by
  simp [FS.writeFile, FS.readFile, findFileIn]

theorem FS.readFile_writeFile_ne (fs : FS) (p q : Fpath) (c : String) (h : p ≠ q) :
    (fs.writeFile p c).readFile q = fs.readFile q := by
  simp [FS.writeFile, FS.readFile, findFileIn, h]

theorem FS.dirs_writeFile (fs : FS) (p : Fpath) (c : String) :
    (fs.writeFile p c).dirs = fs.dirs := rfl

theorem FS.mem_dirs_createDirAll_self (fs : FS) (p : Fpath) :
    p ∈ (fs.createDirAll p).dirs := by
  unfold FS.createDirAll
  by_cases h : p ∈ fs.dirs <;> simp [h]

theorem FS.mem_dirs_createDirAll_mono (fs : FS) (p d : Fpath) (h : d ∈ fs.dirs) :
    d ∈ (fs.createDirAll p).dirs := by
  unfold FS.createDirAll
  by_cases hp : p ∈ fs.dirs <;> simp [hp, h]

theorem FS.existsPath_of_dir (fs : FS) (p d : Fpath) (hd : d ∈ fs.dirs)
    (hpre : p.isPrefixOf d = true) :
    fs.existsPath p = true := by
  have h : fs.dirs.any (fun d2 => p.isPrefixOf d2) = true :=
    List.any_eq_true.mpr ⟨d, hd, hpre⟩
  simp [FS.existsPath, h]

theorem isPrefixOf_append_self (l t : List String) : l.isPrefixOf (l ++ t) = true := by
  induction l with
  | nil => simp [List.isPrefixOf]
  | cons a l ih => simp [List.isPrefixOf, ih]

/-- The builder tail never records a spawn effect beyond those already in
its input trace. -/
theorem buildBundleRest_no_spawned (t : Trampoline)
    (macos_path resources_path plist dst_exe src_exe : Fpath) (exe_name : String)
    (fault : FsOpId → Option IOError) (fs1 : FS) (tr1 : List Effect) (p : Fpath)
    (h : Effect.spawned p ∉ tr1) :
    Effect.spawned p ∉ (buildBundleRest t macos_path resources_path plist dst_exe src_exe
      exe_name fault fs1 tr1).2.2 := by
  unfold buildBundleRest
  cases h1 : fault FsOpId.createDirMacOS <;>
    cases h2 : fault FsOpId.createDirResources <;>
      cases h3 : fault FsOpId.copyExe <;>
        cases h4 : fault FsOpId.writePlist <;>
          cases h5 : ((fs1.createDirAll macos_path).createDirAll resources_path).copy src_exe dst_exe <;>
            simp_all

/-- The builder never records a spawn effect: the child is only spawned by
the relauncher step after the builder has returned successfully. -/
theorem buildBundle_no_spawned (t : Trampoline) (ip src : Fpath) (exe : String)
    (fault : FsOpId → Option IOError) (fs : FS) (p : Fpath) :
    Effect.spawned p ∉ (buildBundle t ip src exe fault fs).2.2 := by
  unfold buildBundle
  cases h1 : fault FsOpId.tryExists with
  | some e => simp [h1]
  | none =>
    simp only [h1]
    cases h2 : fs.existsPath (ip ++ [t.name ++ ".app"]) with
    | false =>
      simp [h2]
      exact buildBundleRest_no_spawned _ _ _ _ _ _ _ _ _ _ _ (by simp)
    | true =>
      simp only [h2, if_true]
      cases h3 : fault FsOpId.removeDirAll with
      | some e => simp [h3]
      | none =>
        simp only [h3]
        exact buildBundleRest_no_spawned _ _ _ _ _ _ _ _ _ _ _ (by simp)

/-- `Application::new` can return a handle or panic, but never an `Err`. -/
theorem Application.new_ne_error (env : Env) (name ident : String) (b : NSBundle)
    (e : IOError) : Application.new env name ident b ≠ Outcome.error e := by
  unfold Application.new
  cases env.currentExe <;> simp
  split <;> simp

/-! Claim theorems. -/

/-- Claim C4: `Trampoline::is_bundled` returns true exactly when the
OS-reported main-bundle object (which always exists) reports a bundle
identifier; absence of the identifier yields the normal total boolean
result `false`, never an error. -/
theorem is_bundled_iff_bundleIdentifier (env : Env) :
    Trampoline.is_bundled env = env.mainBundle.bundleIdentifier.isSome := by
  cases h : env.mainBundle.bundleIdentifier <;>
    simp [Trampoline.is_bundled, Trampoline.get_bundle, h]

/-- Claim C1: in the unbundled case, once the relaunched child terminates,
the parent exits with the child's explicit exit code, or with the sentinel
125 when the child was terminated by a signal (no explicit code). -/
theorem exit_code_propagation (t : Trampoline) (loc : InstallDir) (env : Env)
    {ip src_exe : Fpath} {exe_name : String} {dst : Fpath} {fs1 : FS} {tr : List Effect}
    (st : Option Int)
    (h0 : Trampoline.get_bundle env = none)
    (h1 : resolveInstallDir loc env = Outcome.ok ip)
    (h2 : env.currentExe = Except.ok src_exe)
    (h3 : src_exe.getLast? = some exe_name)
    (h4 : buildBundle t ip src_exe exe_name env.fault env.fs = (Except.ok dst, fs1, tr))
    (h5 : env.spawnResult dst = Except.ok st) :
    (Trampoline.bundle t loc env).1
      = BundleResult.exited (match st with | some c => c | none => (125 : Int)) := by
  cases st <;> simp [Trampoline.bundle, h0, h1, h2, h3, h4, h5]

theorem exit_code_propagation_witness :
    (Trampoline.bundle t0 InstallDir.temp envUnbundled).1 = BundleResult.exited 7
    ∧ (Trampoline.bundle t0 InstallDir.temp envSignalled).1 = BundleResult.exited 125 :=
  ⟨exit_code_propagation t0 InstallDir.temp envUnbundled (some 7) rfl rfl rfl rfl rfl rfl,
   exit_code_propagation t0 InstallDir.temp envSignalled none rfl rfl rfl rfl rfl rfl⟩

/-- Claim C2: a call to `Trampoline::bundle` returns `Ok(Application)` only
in the already-bundled case, terminates the process (modelled
`BundleResult.exited`) only in the unbundled case, and an `Err` return only
occurs in the unbundled case as well, so the only normal returns are
`Ok(Application)` when bundled and `Err` on build/spawn failure. -/
theorem bundle_return_classification (t : Trampoline) (loc : InstallDir) (env : Env) :
    (∀ app, (Trampoline.bundle t loc env).1 = BundleResult.ok app →
        Trampoline.is_bundled env = true)
    ∧ (∀ code, (Trampoline.bundle t loc env).1 = BundleResult.exited code →
        Trampoline.is_bundled env = false)
    ∧ (∀ e, (Trampoline.bundle t loc env).1 = BundleResult.error e →
        Trampoline.is_bundled env = false) := by
  cases hb : Trampoline.get_bundle env with
  | some b =>
    have hT : Trampoline.is_bundled env = true := by simp [Trampoline.is_bundled, hb]
    refine ⟨fun _ _ => hT, fun code hc => ?_, fun e hc => ?_⟩
    · exfalso
      revert hc
      simp only [Trampoline.bundle, hb]
      cases Application.new env t.name t.ident b <;> simp
    · exfalso
      revert hc
      simp only [Trampoline.bundle, hb]
      cases hn : Application.new env t.name t.ident b <;> simp
      exact fun h2 => Application.new_ne_error env t.name t.ident b _ (hn.trans (by rw [h2]))
  | none =>
    have hF : Trampoline.is_bundled env = false := by simp [Trampoline.is_bundled, hb]
    refine ⟨fun app hc => ?_, fun _ _ => hF, fun _ _ => hF⟩
    exfalso
    revert hc
    simp only [Trampoline.bundle, hb]
    cases hr : resolveInstallDir loc env <;> simp
    cases he : env.currentExe <;> simp
    cases hl : List.getLast? _ <;> simp
    cases h4 : buildBundle t _ _ _ env.fault env.fs with
    | mk r rest =>
      cases r <;> simp
      cases hs : env.spawnResult _ <;> simp
      rename_i st
      cases st <;> simp

theorem bundle_return_classification_witness :
    Trampoline.is_bundled envBundled = true :=
  (bundle_return_classification t0 InstallDir.temp envBundled).1 _ rfl

/-- Claim C3: when the detector reports the process is already bundled,
`Trampoline::bundle` returns an `Application` immediately, the filesystem
is unchanged and the effect trace is empty (no directory created, no file
copied, no manifest written, no child spawned). -/
theorem bundled_short_circuit (t : Trampoline) (loc : InstallDir) (env : Env)
    (b : NSBundle) (exe : Fpath)
    (hb : Trampoline.get_bundle env = some b)
    (hm : env.onMainThread = true)
    (he : env.currentExe = Except.ok exe) :
    ∃ app, Trampoline.bundle t loc env = (BundleResult.ok app, env.fs, []) := by
  refine ⟨{ name := t.name, ident := t.ident,
            bundle_path := exe.dropLast.dropLast.dropLast,
            bundle := b, app := NSApplication.mk }, ?_⟩
  simp [Trampoline.bundle, hb, Application.new, he, hm]

theorem bundled_short_circuit_witness :
    ∃ app, Trampoline.bundle t0 InstallDir.temp envBundled
      = (BundleResult.ok app, envBundled.fs, []) :=
  bundled_short_circuit t0 InstallDir.temp envBundled
    { bundleIdentifier := some "org.example.MyApp" } ["usr", "bin", "myapp"] rfl rfl rfl

/-- Claim C7: a filesystem error during bundle construction (custom-path
resolution, existence check, recursive removal, directory creation,
executable copy or manifest write) is returned as `Err` carrying the
underlying OS error, with no retry and no child process spawned. -/
theorem fs_error_surfaced_before_spawn (t : Trampoline) (loc : InstallDir) (env : Env)
    {ip src_exe : Fpath} {exe_name : String} {e : IOError} {fs1 : FS} {tr : List Effect}
    (h0 : Trampoline.get_bundle env = none)
    (h1 : resolveInstallDir loc env = Outcome.ok ip)
    (h2 : env.currentExe = Except.ok src_exe)
    (h3 : src_exe.getLast? = some exe_name)
    (h4 : buildBundle t ip src_exe exe_name env.fault env.fs = (Except.error e, fs1, tr)) :
    Trampoline.bundle t loc env = (BundleResult.error e, fs1, tr)
    ∧ (∀ p : Fpath, Effect.spawned p ∉ tr)
    ∧ (∀ (q : Fpath) (e2 : IOError), env.canonicalize q = Except.error e2 →
        Trampoline.bundle t (InstallDir.custom q) env = (BundleResult.error e2, env.fs, [])) := by
  refine ⟨?_, fun p => ?_, fun q e2 hc => ?_⟩
  · simp [Trampoline.bundle, h0, h1, h2, h3, h4]
  · have hns := buildBundle_no_spawned t ip src_exe exe_name env.fault env.fs p
    rw [h4] at hns
    simpa using hns
  · simp [Trampoline.bundle, h0, resolveInstallDir, hc]

theorem fs_error_surfaced_before_spawn_witness :
    Trampoline.bundle t0 InstallDir.temp envFaultCopy
      = (BundleResult.error ⟨13⟩,
         { dirs := [["tmp", "Foo.app", "Contents", "Resources"],
                    ["tmp", "Foo.app", "Contents", "MacOS"],
                    ["usr"], ["usr", "bin"]],
           files := [(["usr", "bin", "myapp"], "EXEBYTES")] },
         [Effect.createdDir ["tmp", "Foo.app", "Contents", "MacOS"],
          Effect.createdDir ["tmp", "Foo.app", "Contents", "Resources"]]) :=
  (fs_error_surfaced_before_spawn t0 InstallDir.temp envFaultCopy rfl rfl rfl rfl rfl).1

/-- Claim C8: in the fake platform layer, the flag starts false (so the
identity query returns none before any build step), the fake bundle
operation makes the query return a non-none identifier, and the flag is
never reset by any subsequent sequence of operations. -/
theorem default_flag_monotone :
    defaultBundleIdentifier initialIsBundled = none
    ∧ (defaultBundleIdentifier (defaultBundle initialIsBundled)).isSome = true
    ∧ ∀ ops : List DefaultOp,
        (defaultBundleIdentifier (defaultRun (defaultBundle initialIsBundled) ops)).isSome
          = true := by
  refine ⟨rfl, rfl, ?_⟩
  intro ops
  have h : ∀ l : List DefaultOp, defaultRun true l = true := by
    intro l
    induction l with
    | nil => rfl
    | cons op l ih => cases op <;> simpa [defaultRun, defaultStep, defaultBundle] using ih
  have hb : defaultBundle initialIsBundled = true := rfl
  rw [hb, h ops]
  rfl

/-- Claim C9 (code bug): `Trampoline::new` initializes the version field
from `env!("CARGO_PKG_VERSION")`, the relaunch crate's own version, so
whenever the downstream binary's version differs from the crate version the
default is not the binary's version (the source marks this with a FIXME). -/
theorem new_version_is_crate_version (name ident crateVersion binaryVersion : String)
    (h : crateVersion ≠ binaryVersion) :
    (Trampoline.new name ident crateVersion).version = crateVersion
    ∧ (Trampoline.new name ident crateVersion).version ≠ binaryVersion :=
  ⟨rfl, h⟩

theorem new_version_is_crate_version_witness :
    (Trampoline.new "Foo" "org.example.Foo" "0.1.2").version = "0.1.2"
    ∧ (Trampoline.new "Foo" "org.example.Foo" "0.1.2").version ≠ "1.2.3" :=
  new_version_is_crate_version "Foo" "org.example.Foo" "0.1.2" "1.2.3" (by decide)

/-- Claim C10: in the unbundled case, `InstallDir::UserApplications` with no
determinable home directory panics via `unwrap`, whereas a custom path whose
resolution fails returns a filesystem `Err` instead. -/
theorem userApplications_no_home_panics (t : Trampoline) (env : Env)
    (h0 : Trampoline.get_bundle env = none) (hh : env.homeDir = none) :
    (Trampoline.bundle t InstallDir.userApplications env).1
        = BundleResult.panicked "called Option::unwrap() on a None value"
    ∧ ∀ (q : Fpath) (e : IOError), env.canonicalize q = Except.error e →
        (Trampoline.bundle t (InstallDir.custom q) env).1 = BundleResult.error e := by
  constructor
  · simp [Trampoline.bundle, h0, resolveInstallDir, hh]
  · intro q e hc
    simp [Trampoline.bundle, h0, resolveInstallDir, hc]

theorem userApplications_no_home_panics_witness :
    (Trampoline.bundle t0 InstallDir.userApplications envNoHome).1
      = BundleResult.panicked "called Option::unwrap() on a None value" :=
  (userApplications_no_home_panics t0 envNoHome rfl rfl).1

/-- A block of consecutive elements of `L`, located by an explicit drop
index, is an infix of `L`. -/
theorem infix_of_drop {α : Type} (L l : List α) {t2 : List α} (n : Nat)
    (h : L.drop n = l ++ t2) : l <:+: L := by
  have h1 : l <+: L.drop n := ⟨t2, h.symm⟩
  exact h1.isInfix.trans (List.drop_suffix n L).isInfix

/-- Claim C6: for every config, the generated manifest sets `CFBundleName`
and `CFBundleDisplayName` to the name, `CFBundleIdentifier` to the
identifier, `CFBundleShortVersionString` and `CFBundleVersion` to the
version, `CFBundleExecutable` to the copied executable's file name, and
contains every fixed key with its fixed value (each key line immediately
followed by its value lines in the written plist). -/
theorem manifest_fidelity (name ident version exe_name : String) :
    (["\t<key>CFBundleName</key>\n", "\t<string>" ++ name ++ "</string>\n"]
        <:+: infoPlistLines name ident version exe_name)
    ∧ (["\t<key>CFBundleDisplayName</key>\n", "\t<string>" ++ name ++ "</string>\n"]
        <:+: infoPlistLines name ident version exe_name)
    ∧ (["\t<key>CFBundleIdentifier</key>\n", "\t<string>" ++ ident ++ "</string>\n"]
        <:+: infoPlistLines name ident version exe_name)
    ∧ (["\t<key>CFBundleExecutable</key>\n", "\t<string>" ++ exe_name ++ "</string>\n"]
        <:+: infoPlistLines name ident version exe_name)
    ∧ (["\t<key>CFBundleShortVersionString</key>\n", "\t<string>" ++ version ++ "</string>\n"]
        <:+: infoPlistLines name ident version exe_name)
    ∧ (["\t<key>CFBundleSupportedPlatforms</key>\n", "\t<array>\n",
        "\t\t<string>MacOSX</string>\n", "\t</array>\n"]
        <:+: infoPlistLines name ident version exe_name)
    ∧ (["\t<key>CFBundleVersion</key>\n", "\t<string>" ++ version ++ "</string>\n"]
        <:+: infoPlistLines name ident version exe_name)
    ∧ (["\t<key>NSPrincipalClass</key>\n", "\t<string>NSApplication</string>\n"]
        <:+: infoPlistLines name ident version exe_name)
    ∧ (["\t<key>NSHighResolutionCapable</key>\n", "\t<true/>\n"]
        <:+: infoPlistLines name ident version exe_name)
    ∧ (["\t<key>CFBundleInfoDictionaryVersion</key>\n", "\t<string>6.0</string>\n"]
        <:+: infoPlistLines name ident version exe_name)
    ∧ (["\t<key>CFBundlePackageType</key>\n", "\t<string>APPL</string>\n"]
        <:+: infoPlistLines name ident version exe_name)
    ∧ (["\t<key>CFBundleSignature</key>\n", "\t<string>????</string>\n"]
        <:+: infoPlistLines name ident version exe_name)
    ∧ (["\t<key>LSMinimumSystemVersion</key>\n", "\t<string>10.10.0</string>\n"]
        <:+: infoPlistLines name ident version exe_name) :=
  ⟨infix_of_drop _ _ 4 rfl,
   infix_of_drop _ _ 6 rfl,
   infix_of_drop _ _ 8 rfl,
   infix_of_drop _ _ 10 rfl,
   infix_of_drop _ _ 12 rfl,
   infix_of_drop _ _ 14 rfl,
   infix_of_drop _ _ 18 rfl,
   infix_of_drop _ _ 20 rfl,
   infix_of_drop _ _ 22 rfl,
   infix_of_drop _ _ 24 rfl,
   infix_of_drop _ _ 26 rfl,
   infix_of_drop _ _ 28 rfl,
   infix_of_drop _ _ 30 rfl⟩

/-- Running the builder tail with no injected faults succeeds and produces
the fully determined filesystem and trace. -/
theorem buildBundleRest_nofault (t : Trampoline)
    (macos_path resources_path plist dst_exe src_exe : Fpath) (exe_name : String)
    (fs1 : FS) (tr1 : List Effect) (bytes : String)
    (hsrc : fs1.readFile src_exe = some bytes) :
    buildBundleRest t macos_path resources_path plist dst_exe src_exe exe_name
        (fun _ => none) fs1 tr1
      = (Except.ok dst_exe,
         (((fs1.createDirAll macos_path).createDirAll resources_path).writeFile dst_exe
             bytes).writeFile plist (infoPlistContent t.name t.ident t.version exe_name),
         tr1 ++ [Effect.createdDir macos_path] ++ [Effect.createdDir resources_path]
           ++ [Effect.copiedFile src_exe dst_exe]
           ++ [Effect.wroteFile plist (infoPlistContent t.name t.ident t.version exe_name)]) := by
  have hread : ((fs1.createDirAll macos_path).createDirAll resources_path).readFile src_exe
      = some bytes := by
    rw [FS.readFile_createDirAll, FS.readFile_createDirAll]
    exact hsrc
  unfold buildBundleRest
  simp only [FS.copy, hread]

/-- Running the whole builder with no injected faults, from a filesystem in
which the current executable exists with contents `bytes` outside the
bundle path, succeeds: it returns the copied executable's path, the
manifest and executable contents are fully determined, the source
executable survives, and afterwards the bundle path exists. -/
theorem buildBundle_nofault_success (t : Trampoline) (ip src_exe : Fpath)
    (exe_name : String) (fs : FS) (bytes : String)
    (hsrc : fs.readFile src_exe = some bytes)
    (hnp : (ip ++ [t.name ++ ".app"]).isPrefixOf src_exe = false) :
    ∃ (fs2 : FS) (tr : List Effect),
      buildBundle t ip src_exe exe_name (fun _ => none) fs
        = (Except.ok ((((ip ++ [t.name ++ ".app"]) ++ ["Contents"]) ++ ["MacOS"]) ++ [exe_name]),
           fs2, tr)
      ∧ fs2.readFile (((ip ++ [t.name ++ ".app"]) ++ ["Contents"]) ++ ["Info.plist"])
          = some (infoPlistContent t.name t.ident t.version exe_name)
      ∧ fs2.readFile ((((ip ++ [t.name ++ ".app"]) ++ ["Contents"]) ++ ["MacOS"]) ++ [exe_name])
          = some bytes
      ∧ fs2.readFile src_exe = some bytes
      ∧ fs2.existsPath (ip ++ [t.name ++ ".app"]) = true := by
  have hne_pd : (((ip ++ [t.name ++ ".app"]) ++ ["Contents"]) ++ ["Info.plist"])
      ≠ ((((ip ++ [t.name ++ ".app"]) ++ ["Contents"]) ++ ["MacOS"]) ++ [exe_name]) := by
    intro h
    have hl := congrArg List.length h
    simp [List.length_append] at hl
  have hpre_p : (ip ++ [t.name ++ ".app"]).isPrefixOf
      (((ip ++ [t.name ++ ".app"]) ++ ["Contents"]) ++ ["Info.plist"]) = true := by
    rw [List.append_assoc]
    exact isPrefixOf_append_self _ _
  have hpre_d : (ip ++ [t.name ++ ".app"]).isPrefixOf
      ((((ip ++ [t.name ++ ".app"]) ++ ["Contents"]) ++ ["MacOS"]) ++ [exe_name]) = true := by
    rw [List.append_assoc, List.append_assoc]
    exact isPrefixOf_append_self _ _
  have hpre_m : (ip ++ [t.name ++ ".app"]).isPrefixOf
      (((ip ++ [t.name ++ ".app"]) ++ ["Contents"]) ++ ["MacOS"]) = true := by
    rw [List.append_assoc]
    exact isPrefixOf_append_self _ _
  have hne_ps : (((ip ++ [t.name ++ ".app"]) ++ ["Contents"]) ++ ["Info.plist"]) ≠ src_exe := by
    intro h
    rw [h, hnp] at hpre_p
    simp at hpre_p
  have hne_ds : ((((ip ++ [t.name ++ ".app"]) ++ ["Contents"]) ++ ["MacOS"]) ++ [exe_name])
      ≠ src_exe := by
    intro h
    rw [h, hnp] at hpre_d
    simp at hpre_d
  cases hex : fs.existsPath (ip ++ [t.name ++ ".app"]) with
  | true =>
    have hsrc1 : (fs.removeDirAll (ip ++ [t.name ++ ".app"])).readFile src_exe = some bytes := by
      rw [FS.readFile_removeDirAll _ _ _ hnp]
      exact hsrc
    have hb := buildBundleRest_nofault t
      (((ip ++ [t.name ++ ".app"]) ++ ["Contents"]) ++ ["MacOS"])
      (((ip ++ [t.name ++ ".app"]) ++ ["Contents"]) ++ ["Resources"])
      (((ip ++ [t.name ++ ".app"]) ++ ["Contents"]) ++ ["Info.plist"])
      ((((ip ++ [t.name ++ ".app"]) ++ ["Contents"]) ++ ["MacOS"]) ++ [exe_name])
      src_exe exe_name
      (fs.removeDirAll (ip ++ [t.name ++ ".app"]))
      [Effect.removedDir (ip ++ [t.name ++ ".app"])] bytes hsrc1
    have hmain : buildBundle t ip src_exe exe_name (fun _ => none) fs
        = buildBundleRest t
            (((ip ++ [t.name ++ ".app"]) ++ ["Contents"]) ++ ["MacOS"])
            (((ip ++ [t.name ++ ".app"]) ++ ["Contents"]) ++ ["Resources"])
            (((ip ++ [t.name ++ ".app"]) ++ ["Contents"]) ++ ["Info.plist"])
            ((((ip ++ [t.name ++ ".app"]) ++ ["Contents"]) ++ ["MacOS"]) ++ [exe_name])
            src_exe exe_name (fun _ => none)
            (fs.removeDirAll (ip ++ [t.name ++ ".app"]))
            [Effect.removedDir (ip ++ [t.name ++ ".app"])] := by
      unfold buildBundle
      simp only [hex, if_true]
    refine ⟨_, _, hmain.trans hb, ?_, ?_, ?_, ?_⟩
    · rw [FS.readFile_writeFile_self]
    · rw [FS.readFile_writeFile_ne _ _ _ _ hne_pd, FS.readFile_writeFile_self]
    · rw [FS.readFile_writeFile_ne _ _ _ _ hne_ps, FS.readFile_writeFile_ne _ _ _ _ hne_ds,
        FS.readFile_createDirAll, FS.readFile_createDirAll,
        FS.readFile_removeDirAll _ _ _ hnp]
      exact hsrc
    · exact FS.existsPath_of_dir _ _ (((ip ++ [t.name ++ ".app"]) ++ ["Contents"]) ++ ["MacOS"])
        (FS.mem_dirs_createDirAll_mono _ _ _ (FS.mem_dirs_createDirAll_self _ _)) hpre_m
  | false =>
    have hb := buildBundleRest_nofault t
      (((ip ++ [t.name ++ ".app"]) ++ ["Contents"]) ++ ["MacOS"])
      (((ip ++ [t.name ++ ".app"]) ++ ["Contents"]) ++ ["Resources"])
      (((ip ++ [t.name ++ ".app"]) ++ ["Contents"]) ++ ["Info.plist"])
      ((((ip ++ [t.name ++ ".app"]) ++ ["Contents"]) ++ ["MacOS"]) ++ [exe_name])
      src_exe exe_name fs [] bytes hsrc
    have hmain : buildBundle t ip src_exe exe_name (fun _ => none) fs
        = buildBundleRest t
            (((ip ++ [t.name ++ ".app"]) ++ ["Contents"]) ++ ["MacOS"])
            (((ip ++ [t.name ++ ".app"]) ++ ["Contents"]) ++ ["Resources"])
            (((ip ++ [t.name ++ ".app"]) ++ ["Contents"]) ++ ["Info.plist"])
            ((((ip ++ [t.name ++ ".app"]) ++ ["Contents"]) ++ ["MacOS"]) ++ [exe_name])
            src_exe exe_name (fun _ => none) fs [] := by
      unfold buildBundle
      simp only [hex]
      simp
    refine ⟨_, _, hmain.trans hb, ?_, ?_, ?_, ?_⟩
    · rw [FS.readFile_writeFile_self]
    · rw [FS.readFile_writeFile_ne _ _ _ _ hne_pd, FS.readFile_writeFile_self]
    · rw [FS.readFile_writeFile_ne _ _ _ _ hne_ps, FS.readFile_writeFile_ne _ _ _ _ hne_ds,
        FS.readFile_createDirAll, FS.readFile_createDirAll]
      exact hsrc
    · exact FS.existsPath_of_dir _ _ (((ip ++ [t.name ++ ".app"]) ++ ["Contents"]) ++ ["MacOS"])
        (FS.mem_dirs_createDirAll_mono _ _ _ (FS.mem_dirs_createDirAll_self _ _)) hpre_m

/-- Claim C5: for every config and install location, running the builder
twice in succession yields the same manifest contents and the same copied
executable contents, and the second run succeeds even though the bundle
path already exists (it is removed recursively before rebuilding). -/
theorem builder_idempotent_rebuild (t : Trampoline) (ip src_exe : Fpath)
    (exe_name : String) (fs0 : FS) (bytes : String)
    (hsrc : fs0.readFile src_exe = some bytes)
    (hnp : (ip ++ [t.name ++ ".app"]).isPrefixOf src_exe = false) :
    ∃ (fs1 fs2 : FS) (tr1 tr2 : List Effect) (dst : Fpath),
      buildBundle t ip src_exe exe_name (fun _ => none) fs0 = (Except.ok dst, fs1, tr1)
      ∧ fs1.existsPath (ip ++ [t.name ++ ".app"]) = true
      ∧ buildBundle t ip src_exe exe_name (fun _ => none) fs1 = (Except.ok dst, fs2, tr2)
      ∧ fs1.readFile (((ip ++ [t.name ++ ".app"]) ++ ["Contents"]) ++ ["Info.plist"])
          = some (infoPlistContent t.name t.ident t.version exe_name)
      ∧ fs2.readFile (((ip ++ [t.name ++ ".app"]) ++ ["Contents"]) ++ ["Info.plist"])
          = fs1.readFile (((ip ++ [t.name ++ ".app"]) ++ ["Contents"]) ++ ["Info.plist"])
      ∧ fs1.readFile ((((ip ++ [t.name ++ ".app"]) ++ ["Contents"]) ++ ["MacOS"]) ++ [exe_name])
          = some bytes
      ∧ fs2.readFile ((((ip ++ [t.name ++ ".app"]) ++ ["Contents"]) ++ ["MacOS"]) ++ [exe_name])
          = fs1.readFile ((((ip ++ [t.name ++ ".app"]) ++ ["Contents"]) ++ ["MacOS"])
              ++ [exe_name]) := by
  obtain ⟨fs1, tr1, heq1, hplist1, hdst1, hsrc1, hex1⟩ :=
    buildBundle_nofault_success t ip src_exe exe_name fs0 bytes hsrc hnp
  obtain ⟨fs2, tr2, heq2, hplist2, hdst2, hsrc2, hex2⟩ :=
    buildBundle_nofault_success t ip src_exe exe_name fs1 bytes hsrc1 hnp
  exact ⟨fs1, fs2, tr1, tr2, _, heq1, hex1, heq2, hplist1, hplist2.trans hplist1.symm,
    hdst1, hdst2.trans hdst1.symm⟩

theorem builder_idempotent_rebuild_witness :
    ∃ (fs1 fs2 : FS) (tr1 tr2 : List Effect) (dst : Fpath),
      buildBundle t0 ["tmp"] ["usr", "bin", "myapp"] "myapp" (fun _ => none) sampleFS
          = (Except.ok dst, fs1, tr1)
      ∧ fs1.existsPath (["tmp"] ++ [t0.name ++ ".app"]) = true
      ∧ buildBundle t0 ["tmp"] ["usr", "bin", "myapp"] "myapp" (fun _ => none) fs1
          = (Except.ok dst, fs2, tr2)
      ∧ fs1.readFile (((["tmp"] ++ [t0.name ++ ".app"]) ++ ["Contents"]) ++ ["Info.plist"])
          = some (infoPlistContent t0.name t0.ident t0.version "myapp")
      ∧ fs2.readFile (((["tmp"] ++ [t0.name ++ ".app"]) ++ ["Contents"]) ++ ["Info.plist"])
          = fs1.readFile (((["tmp"] ++ [t0.name ++ ".app"]) ++ ["Contents"]) ++ ["Info.plist"])
      ∧ fs1.readFile ((((["tmp"] ++ [t0.name ++ ".app"]) ++ ["Contents"]) ++ ["MacOS"])
            ++ ["myapp"])
          = some "EXEBYTES"
      ∧ fs2.readFile ((((["tmp"] ++ [t0.name ++ ".app"]) ++ ["Contents"]) ++ ["MacOS"])
            ++ ["myapp"])
          = fs1.readFile ((((["tmp"] ++ [t0.name ++ ".app"]) ++ ["Contents"]) ++ ["MacOS"])
              ++ ["myapp"]) :=
  builder_idempotent_rebuild t0 ["tmp"] ["usr", "bin", "myapp"] "myapp" sampleFS "EXEBYTES"
    (by decide) (by decide)
